import Mathlib

/-!
Verification development for the redbus_scrapping repository.

The repository is a set of Selenium scraping scripts. This file gives a
shallow embedding of the pure, algorithmic parts that the specification
talks about: the price-text cleaning and parsing helpers, the per-row
record normalizer and fare-range extractor of `search_buses`
(`src/redbus_scrapper.py` and `src/parallel_redbus_scrapper.py`), the
scroll loop that decides when result loading has settled, the per-route
retry loop with its sentinel error rows, the previously-failed check, and
the bounded worker-pool bookkeeping of `process_multiple_routes` in
`src/parallel_redbus_scrapper.py`.

Selenium elements are modelled as plain data: an element lookup that can
fail becomes an `Option`, the text of an element becomes a `String`, and a
`data-price` attribute becomes an `Option String` (Python `get_attribute`
returns `None` when the attribute is absent). Python floats on the cleaned
price strings (digits and dots only) are modelled as rationals. CSV stores
are lists of rows, each row a list of field strings.
-/

namespace Redbus

/-! ## Numeric cleaning and parsing

The scripts clean price text with a `re.sub` call that removes every
character other than a digit or a dot, and then call `float(...)`,
dropping the value when `float` raises `ValueError`.
-/

/-- Keep only decimal digits and the dot, as the `re.sub` cleaning step does. -/
def stripNonNumDot (s : String) : String :=
  String.mk (s.data.filter (fun c => c.isDigit || c == '.'))

/-- Value of a digit string, most significant digit first. -/
def digitsVal (cs : List Char) : ℕ :=
  cs.foldl (fun acc c => 10 * acc + (c.toNat - 48)) 0

/-- Python `float` on a string made only of digits and dots: it accepts an
optional integer part, an optional dot, and an optional fractional part,
but rejects the empty string, a lone dot, and anything with two dots.
Callers in the scripts only apply this after `stripNonNumDot`. -/
def pyFloat (s : String) : Option ℚ :=
  let cs := s.data
  if cs.isEmpty then none
  else if cs.count '.' == 0 then some (digitsVal cs : ℚ)
  else if cs.count '.' == 1 then
    let intPart := cs.takeWhile (fun c => c ≠ '.')
    let fracPart := (cs.dropWhile (fun c => c ≠ '.')).drop 1
    if intPart.isEmpty && fracPart.isEmpty then none
    else some ((digitsVal intPart : ℚ) + (digitsVal fracPart : ℚ) / (10 : ℚ) ^ fracPart.length)
  else none

/-- Python `min` over a list the code has already checked to be non-empty
(the empty case never occurs in the scripts; 0 is a junk value for it). -/
def pyMin : List ℚ → ℚ
  | [] => 0
  | x :: xs => xs.foldl min x

/-- Python `max` over a list the code has already checked to be non-empty. -/
def pyMax : List ℚ → ℚ
  | [] => 0
  | x :: xs => xs.foldl max x

/-! ## Element helpers

`safe_find_text`, `safe_find_attribute` and `safe_extract_prices` from the
top of both scraper scripts. A sub-element lookup that can raise
`NoSuchElementException` is an `Option` argument.
-/

/-- A rendered location element (selectors `.dp-loc` / `.bp-loc`): its
`title` attribute (`none` when absent) and its visible text. -/
structure LocElem where
  title : Option String
  text : String
  deriving DecidableEq

/-- Model of `safe_find_text`: the text of the sub-element, or the default
when the element is missing. -/
def safe_find_text (el : Option String) (dflt : String) : String :=
  el.getD dflt

/-- Model of `safe_find_attribute` for the location selectors `.dp-loc` and
`.bp-loc` with the `title` attribute: when the element is present it
prefers a truthy `title` value and falls back to the element text (Python
`title_val if title_val else found.text`); when the element is missing it
returns the default. -/
def safe_find_attribute_loc (el : Option LocElem) (dflt : String) : String :=
  match el with
  | none => dflt
  | some e =>
    match e.title with
    | none => e.text
    | some t => if t.isEmpty then e.text else t

/-- Model of `safe_extract_prices`: each matched element contributes its
data attribute value (`none` when `get_attribute` returns `None`). Falsy
values and values in the exclude list are skipped; the rest are cleaned
and parsed, dropping parse failures. -/
def safe_extract_prices (attrs : List (Option String)) (excludeValues : List String) : List ℚ :=
  attrs.filterMap (fun a =>
    match a with
    | none => none
    | some t =>
      if t.isEmpty || excludeValues.contains t then none
      else pyFloat (stripNonNumDot t))

/-! ## The rendered row and the fare extractor -/

/-- One rendered result row (`ul.bus-items li.row-sec`), reduced to the
fields the processing loop reads. The three attribute lists are the
`data-price` values of the elements matched by the three tier selectors
(`.discountPrice li.disPrice:not(.price-selected)`,
`.multiFare li.mulfare:not(.price-selected)`, and every `[data-price]`
element for the generic tier). `viewSeats` records whether a displayed
View Seats button was found for the row. -/
structure BusRow where
  travels : Option String
  busType : Option String
  dpTime : Option String
  dpLoc : Option LocElem
  bpTime : Option String
  bpLoc : Option LocElem
  dur : Option String
  fareBold : Option String
  viewSeats : Bool
  discountAttrs : List (Option String)
  multiAttrs : List (Option String)
  allPriceAttrs : List String
  deriving DecidableEq

/-- The fallback fare read from `.fare .f-bold`: 0 when the element is
missing, the cleaned text is empty, or `float` raises. -/
def initialFarePrice (fareBold : Option String) : ℚ :=
  match fareBold with
  | none => 0
  | some t =>
    let c := stripNonNumDot t
    if c.isEmpty then 0 else (pyFloat c).getD 0

/-- Discount tier values for a row. -/
def discountTier (row : BusRow) : List ℚ :=
  safe_extract_prices row.discountAttrs ["ALL"]

/-- Multi-fare tier values for a row. -/
def multiFareTier (row : BusRow) : List ℚ :=
  safe_extract_prices row.multiAttrs ["ALL"]

/-- Generic tier values for a row: the generic selector only matches
elements whose data-price attribute is present and differs from the ALL
sentinel, and `safe_extract_prices` excludes ALL once more. -/
def genericTier (row : BusRow) : List ℚ :=
  safe_extract_prices ((row.allPriceAttrs.filter (fun v => v != "ALL")).map some) ["ALL"]

/-- The tiered fare computation performed once the seat panel is expanded:
discount prices first, then multi-fare prices, then generic prices; the
first non-empty tier sets lowest and highest, otherwise the fallback fare
is kept for both. -/
def detailedFareRange (fare : ℚ) (d m g : List ℚ) : ℚ × ℚ :=
  if !d.isEmpty then (pyMin d, pyMax d)
  else if !m.isEmpty then (pyMin m, pyMax m)
  else if !g.isEmpty then (pyMin g, pyMax g)
  else (fare, fare)

/-- Lowest and highest price for a row: the tier scan runs only when a View
Seats button was found and clicked; otherwise both stay at the fallback. -/
def rowFareRange (row : BusRow) : ℚ × ℚ :=
  let fare := initialFarePrice row.fareBold
  if row.viewSeats then
    detailedFareRange fare (discountTier row) (multiFareTier row) (genericTier row)
  else (fare, fare)

/-! ## The record normalizer -/

/-- The canonical output record, mirroring the CSV columns. -/
structure BusRecord where
  busId : ℕ
  busName : String
  busType : String
  depTime : String
  arrTime : String
  duration : String
  lowestPrice : ℚ
  highestPrice : ℚ
  startPoint : String
  endPoint : String
  startParent : String
  destParent : String
  deriving DecidableEq

/-- Resolution of the starting point: the departure location unless it is
the Not Found sentinel, in which case the origin city is used
(`start_point = dep_loc if dep_loc != "Not Found" else from_city`). -/
def resolvePoint (loc city : String) : String :=
  if loc ≠ "Not Found" then loc else city

/-- The per-row body of the processing loop in `search_buses`: read the
soft-fail fields, compute the fare range, resolve the stop names. -/
def processBus (fromCity toCity : String) (busId : ℕ) (row : BusRow) : BusRecord :=
  let busName := safe_find_text row.travels "Not Found"
  let busType := safe_find_text row.busType "Not Found"
  let depTime := safe_find_text row.dpTime "Not Found"
  let depLoc := safe_find_attribute_loc row.dpLoc "Not Found"
  let arrTime := safe_find_text row.bpTime "Not Found"
  let arrLoc := safe_find_attribute_loc row.bpLoc "Not Found"
  let duration := safe_find_text row.dur "Not Found"
  let prices := rowFareRange row
  { busId := busId
    busName := busName
    busType := busType
    depTime := depTime
    arrTime := arrTime
    duration := duration
    lowestPrice := prices.1
    highestPrice := prices.2
    startPoint := resolvePoint depLoc fromCity
    endPoint := resolvePoint arrLoc toCity
    startParent := fromCity
    destParent := toCity }

/-! ## Sequence ids and the harvested record stream -/

/-- A CSV row is a valid data row when some field has a non-whitespace
character, which is exactly when `field.strip()` is truthy for some field
(`any(field.strip() for field in row)`). -/
def countValidDataRows (rows : List (List String)) : ℕ :=
  rows.countP (fun r => r.any (fun f => f.data.any (fun c => !c.isWhitespace)))

/-- The starting Bus ID computed by `src/redbus_scrapper.py`: 1 when the
CSV file does not exist, otherwise the header is read and discarded and
the id continues from the count of non-empty data rows plus one (an empty
headerless file counts zero rows). -/
def startingBusId : Option (List (List String)) → ℕ
  | none => 1
  | some [] => 1
  | some (_hdr :: rows) => countValidDataRows rows + 1

/-- The record stream emitted by one run of `search_buses` in
`src/redbus_scrapper.py`: one record per rendered row in discovery order,
with `bus_id = starting_bus_id + index`. -/
def search_buses_records (fromCity toCity : String) (store : Option (List (List String)))
    (rows : List BusRow) : List BusRecord :=
  rows.enum.map (fun p => processBus fromCity toCity (startingBusId store + p.1) p.2)

/-- The record stream emitted by one run of `search_buses` in
`src/parallel_redbus_scrapper.py`: ids always restart at 1
(`bus_id = index + 1`), whatever the existing store holds. -/
def parallel_search_records (fromCity toCity : String) (rows : List BusRow) : List BusRecord :=
  rows.enum.map (fun p => processBus fromCity toCity (p.1 + 1) p.2)

/-- The deduplication key the specification calls RecordIdentity:
operator name, vehicle class, departure time. -/
def recordIdentity (r : BusRecord) : String × String × String :=
  (r.busName, r.busType, r.depTime)

/-- The identity fields as read directly from a rendered row. -/
def rowIdentity (row : BusRow) : String × String × String :=
  (safe_find_text row.travels "Not Found",
   safe_find_text row.busType "Not Found",
   safe_find_text row.dpTime "Not Found")

/-! ## The Phase 2 scroll loop

Both scraper variants run the same `while True:` loop: read the rendered
row count, scroll, wait, re-measure height and count; when neither height
nor count changed the no-progress counter is incremented, otherwise it is
reset; three consecutive no-progress steps trigger a final scroll to the
bottom and the loop breaks. The page is modelled by three observation
streams indexed by the step number: `cPre k` is the row count read before
the scroll of step `k`, and `hPost k` and `cPost k` are the height and row
count measured after it. The loop carries `last_bus_count` too, but never
reads it, so it is not part of the state here. The recursion is on a fuel
argument because the loop has no step bound of its own; the result is the
number of scroll steps performed when the loop broke, or `none` when the
fuel ran out first.
-/

/-- The `max_consecutive_no_change` constant of both scripts. -/
def maxConsecutiveNoChange : ℕ := 3

/-- One full run of the Phase 2 scroll loop, fuel first, then the step
index, the `last_height` value, and the `consecutive_no_change` counter. -/
def scrollLoop (hPost cPre cPost : ℕ → ℕ) :
    ℕ → ℕ → ℕ → ℕ → Option ℕ
  | 0, _, _, _ => none
  | fuel + 1, k, lastHeight, cnt =>
    let currentBusCount := cPre k
    let newHeight := hPost k
    let newBusCount := cPost k
    if newHeight = lastHeight ∧ newBusCount = currentBusCount then
      if cnt + 1 ≥ maxConsecutiveNoChange then some (k + 1)
      else scrollLoop hPost cPre cPost fuel (k + 1) newHeight (cnt + 1)
    else scrollLoop hPost cPre cPost fuel (k + 1) newHeight 0

/-- The counter update applied by one scroll step of the source loop: it
looks at the page height and the rendered row count only. -/
def scrollCounterUpdate (lastHeight newHeight cPre cPost cnt : ℕ) : ℕ :=
  if newHeight = lastHeight ∧ cPost = cPre then cnt + 1 else 0

/-! ## Sentinel rows and the per-route retry loop -/

/-- The CSV header of every route store. -/
def csvHeader : List String :=
  ["Bus ID", "Bus Name", "Bus Type", "Departure Time", "Arrival Time", "Journey Duration",
   "Lowest Price(INR)", "Highest Price(INR)", "Starting Point", "Destination",
   "Starting Point Parent", "Destination Point Parent"]

/-- The sentinel failure row appended on exhausted retries: every field is
the string error, except the Bus Name diagnostic and the two parent city
columns. -/
def errorRow (fromCity toCity msg : String) : List String :=
  ["error", msg, "error", "error", "error", "error",
   "error", "error", "error", "error", fromCity, toCity]

/-- A CSV row marks a failure when its first column is the string error
(`row and row[0] == "error"`). -/
def rowMarksError : List String → Bool
  | [] => false
  | c :: _ => c == "error"

/-- Number of sentinel failure rows in a store. -/
def sentinelCount (store : List (List String)) : ℕ :=
  store.countP rowMarksError

/-- What one iteration of the per-bus retry loop
(`while not bus_processed and bus_retry_count <= max_retries:`, lines
491-756 of `src/parallel_redbus_scrapper.py`) can do: the bus is read and
its data row written (`bus_processed = True`), the CSV append raises (the
handler at lines 680-715), or reading the bus raises (the per-bus handler
at lines 717-751). -/
inductive BusAttemptResult where
  | ok
  | csvFail
  | procFail
  deriving DecidableEq

/-- The per-bus retry loop of `search_buses` in
`src/parallel_redbus_scrapper.py`, lines 491-756. `attempt j` is the
outcome of the j-th iteration for this bus and `dataRow` the CSV row its
successful write appends. Both handlers increment `bus_retry_count` and
retry while it stays at or below `max_retries`, appending nothing; at
exhaustion each appends a sentinel row and re-raises. A CSV-write failure
that exhausts the bus retries appends one row in its own handler and,
because the re-raise is caught by the enclosing per-bus handler whose
increment pushes the counter past the limit again, a second row there, so
the exception leaves the loop with two sentinel rows appended; a
bus-reading failure leaves it with one. The result records the store and
whether the loop was left by an exception (`true`) rather than by
`bus_processed`. The fuel starts at `maxRetries + 1`, the number of
iterations possible since `bus_retry_count` grows on every failure. -/
def processBusAux (attempt : ℕ → BusAttemptResult) (maxRetries : ℕ)
    (fromCity toCity : String) (dataRow : List String) :
    ℕ → ℕ → ℕ → List (List String) → List (List String) × Bool
  | 0, _, _, store => (store, false)
  | fuel + 1, busRetryCount, j, store =>
    if busRetryCount ≤ maxRetries then
      match attempt j with
      | .ok => (store ++ [dataRow], false)
      | .csvFail =>
        if busRetryCount + 1 ≤ maxRetries then
          processBusAux attempt maxRetries fromCity toCity dataRow fuel
            (busRetryCount + 1) (j + 1) store
        else
          (store ++ [errorRow fromCity toCity "ERROR"] ++ [errorRow fromCity toCity "ERROR"],
           true)
      | .procFail =>
        if busRetryCount + 1 ≤ maxRetries then
          processBusAux attempt maxRetries fromCity toCity dataRow fuel
            (busRetryCount + 1) (j + 1) store
        else (store ++ [errorRow fromCity toCity "ERROR"], true)
    else (store, false)

/-- One whole per-bus retry loop run, from `bus_retry_count = 0`. -/
def processBusWithRetries (attempt : ℕ → BusAttemptResult) (maxRetries : ℕ)
    (fromCity toCity : String) (dataRow : List String) (store : List (List String)) :
    List (List String) × Bool :=
  processBusAux attempt maxRetries fromCity toCity dataRow (maxRetries + 1) 0 0 store

/-- What one attempt of the `while retry_count <= max_retries:` body of
`search_buses` in `src/parallel_redbus_scrapper.py` can do, as seen by the
route-level retry bookkeeping: succeed and break; fail in the navigation
part of the outer try block (the exception reaches only the handler at
function level, lines 861 and on, with nothing appended); or fail inside
the results-processing try block (the exception is caught by one of the
inner route-level handlers at lines 760 and 802). In the last case
`busRows` is the number of sentinel rows the per-bus handlers already
appended during the attempt before the exception reached the route-level
handlers: 0 when the failure arose outside the per-bus loop (for example
while scrolling), 1 when a bus exhausted its retries in the reading
handler, 2 when it exhausted them in the CSV-write handler, as
`processBusAux` shows. These rows stay in the store whether or not
route-level retries remain. -/
inductive AttemptResult where
  | success
  | navFail
  | resultsFail (busRows : ℕ)
  deriving DecidableEq

/-- The route-level retry loop of `search_buses` in
`src/parallel_redbus_scrapper.py`, tracking the route store and whether a
failure surfaced to the caller. `attempt i` is the outcome of the i-th
iteration. A results-processing failure first leaves in the store the
sentinel rows its per-bus handlers appended during the attempt. Every
route-level handler then increments `retry_count` and retries while it
stays at or below `max_retries`; at exhaustion it appends a sentinel row
and re-raises. A results failure at exhaustion is appended once by the
inner route-level handler and, because its re-raise lands in the
function-level handler which increments the counter past the limit again,
once more there. The fuel starts at `maxRetries + 1`, the exact number of
loop iterations possible since `retry_count` grows on every failed
attempt. -/
def runRouteAux (attempt : ℕ → AttemptResult) (maxRetries : ℕ) (fromCity toCity : String) :
    ℕ → ℕ → ℕ → List (List String) → List (List String) × Bool
  | 0, _, _, store => (store, false)
  | fuel + 1, retryCount, i, store =>
    if retryCount ≤ maxRetries then
      match attempt i with
      | .success => (store, false)
      | .navFail =>
        if retryCount + 1 ≤ maxRetries then
          runRouteAux attempt maxRetries fromCity toCity fuel (retryCount + 1) (i + 1) store
        else (store ++ [errorRow fromCity toCity "ERROR"], true)
      | .resultsFail busRows =>
        let store2 := store ++ List.replicate busRows (errorRow fromCity toCity "ERROR")
        if retryCount + 1 ≤ maxRetries then
          runRouteAux attempt maxRetries fromCity toCity fuel (retryCount + 1) (i + 1) store2
        else
          (store2 ++ [errorRow fromCity toCity "ERROR"] ++ [errorRow fromCity toCity "ERROR"],
           true)
    else (store, false)

/-- One whole `search_buses` run of the parallel variant, from a given
initial store. -/
def runRoute (attempt : ℕ → AttemptResult) (maxRetries : ℕ) (fromCity toCity : String)
    (store : List (List String)) : List (List String) × Bool :=
  runRouteAux attempt maxRetries fromCity toCity (maxRetries + 1) 0 0 store

/-! ## The previously-failed check and the batch filter -/

/-- Model of `check_route_failed`: `False` when the file does not exist;
otherwise the header row is skipped (an empty file raises `StopIteration`
at `next(reader)`, which the handler turns into `False`) and the remaining
rows are scanned for a first column equal to error. -/
def check_route_failed : Option (List (List String)) → Bool
  | none => false
  | some [] => false
  | some (_hdr :: rows) => rows.any rowMarksError

/-- The route filter at the top of `process_multiple_routes`: with
`skip_failed` set, routes whose store passes `check_route_failed` are
dropped; without it, every route is kept. `storeOf` maps a route pair to
the contents of its CSV file, `none` when the file does not exist. -/
def routesToProcess (skipFailed : Bool)
    (storeOf : String × String → Option (List (List String)))
    (routes : List (String × String)) : List (String × String) :=
  if skipFailed then routes.filter (fun r => !check_route_failed (storeOf r))
  else routes

/-! ## The worker-pool bookkeeping of the batch coordinator

`process_multiple_routes` submits at most `max_workers` routes up front
(`while routes_queue and len(futures_to_routes) < max_workers`), then, per
future that completes or is force-cancelled on timeout, deletes it from
`futures_to_routes` and submits at most one queued route in its place.
The state is the queue of not-yet-submitted routes plus the number of
entries of `futures_to_routes`; each `executor.submit` is a +1 and each
`del futures_to_routes[...]` a -1.
-/

/-- The worker bound `max_workers = min(os.cpu_count() or 1, 3)`. -/
def maxWorkers (cpuCount : Option ℕ) : ℕ :=
  min (match cpuCount with
       | none => 1
       | some n => if n = 0 then 1 else n) 3

/-- The initial pool fill: pop routes while the queue is non-empty and the
pool is below the bound. -/
def fillPool (mw : ℕ) : List (String × String) → ℕ → List (String × String) × ℕ
  | [], inFlight => ([], inFlight)
  | r :: rest, inFlight =>
    if inFlight < mw then fillPool mw rest (inFlight + 1)
    else (r :: rest, inFlight)

/-- One future leaving the pool (completed, failed, or cancelled on
timeout): it is deleted from the tracking map and, when the queue still
holds routes, exactly one replacement is submitted. When the map is
already empty the dispatch loop has exited and nothing happens. -/
def finishOne : List (String × String) × ℕ → List (String × String) × ℕ
  | (q, 0) => (q, 0)
  | ([], n + 1) => ([], n)
  | (_r :: rest, n + 1) => (rest, n + 1)

/-- The coordinator after the initial fill and a number of finish events. -/
def runCoordinator (mw : ℕ) (routes : List (String × String)) (events : ℕ) :
    List (String × String) × ℕ :=
  finishOne^[events] (fillPool mw routes 0)

/-! ## Specification-side definitions

These follow the wording of the specification, to be compared with the
definitions above, which follow the source.
-/

/-- Modelled from the specification, Step 3 of the Fare Extractor: the
first of the fare tiers to yield a non-empty value set alone determines
lowest and highest as its minimum and maximum; tiers are never merged;
when every tier is empty the single visible fallback fare is kept for
both. -/
def specFareRange (fare : ℚ) (tiers : List (List ℚ)) : ℚ × ℚ :=
  match tiers.find? (fun l => !l.isEmpty) with
  | some vs => (pyMin vs, pyMax vs)
  | none => (fare, fare)

/-- Modelled from the specification, the no-progress rule of the
Incremental Harvester: increment the counter exactly when none of page
height, rendered row count, and harvested count changed across the step;
reset it to zero otherwise. -/
def specNoProgressUpdate
    (lastHeight newHeight cPre cPost harvestedPre harvestedPost cnt : ℕ) : ℕ :=
  if newHeight = lastHeight ∧ cPost = cPre ∧ harvestedPost = harvestedPre then cnt + 1
  else 0

/-- Modelled from the specification: a route counts as previously failed
when its output store exists and some data row (a row after the header)
has first column equal to the string error. -/
def storeHasErrorRow : Option (List (List String)) → Bool
  | none => false
  | some [] => false
  | some (_hdr :: rows) => rows.any (fun r => r.head? == some "error")

/-! ## Sample data used in concrete statements -/

/-- A simple rendered row with no expandable seat panel. -/
def dupRow : BusRow :=
  { travels := some "ABC Travels"
    busType := some "AC Sleeper"
    dpTime := some "21:00"
    dpLoc := none
    bpTime := some "05:00"
    bpLoc := none
    dur := some "08h 00m"
    fareBold := some "700"
    viewSeats := false
    discountAttrs := []
    multiAttrs := []
    allPriceAttrs := [] }

/-- A second row whose identity fields differ from `dupRow`. -/
def otherRow : BusRow :=
  { dupRow with travels := some "XYZ Travels", dpTime := some "22:30" }

/-- A row whose expanded panel reveals discount fares parsing to the
float values 450.0, 500.0 and 475.0, next to a visible fallback fare of
600. -/
def discountScenarioRow : BusRow :=
  { travels := some "Scenario Travels"
    busType := some "AC Seater"
    dpTime := some "10:00"
    dpLoc := none
    bpTime := some "16:00"
    bpLoc := none
    dur := some "06h 00m"
    fareBold := some "600"
    viewSeats := true
    discountAttrs := [some "450", some "500", some "475"]
    multiAttrs := []
    allPriceAttrs := [] }

/-- An existing route store holding the header and three data rows. -/
def demoStore : List (List String) :=
  [csvHeader,
   ["1", "ABC Travels", "AC Sleeper", "21:00", "05:00", "08h 00m",
    "700", "700", "Delhi", "Manali", "Delhi", "Manali"],
   ["2", "XYZ Travels", "AC Sleeper", "22:30", "06:00", "07h 30m",
    "650", "800", "Delhi", "Manali", "Delhi", "Manali"],
   ["3", "PQR Travels", "Non AC", "23:00", "07:00", "08h 00m",
    "500", "500", "Delhi", "Manali", "Delhi", "Manali"]]

/-- A store map that marks every route as previously failed. -/
def demoStoreOf : String × String → Option (List (List String)) :=
  fun _ => some [csvHeader, errorRow "Delhi" "Manali" "ERROR"]

/-! ## Helper lemmas -/

lemma foldl_min_le (x : ℚ) (xs : List ℚ) : xs.foldl min x ≤ x := by
  induction xs generalizing x with
  | nil => exact le_refl x
  | cons a xs ih => exact le_trans (ih (min x a)) (min_le_left x a)

lemma le_foldl_max (x : ℚ) (xs : List ℚ) : x ≤ xs.foldl max x := by
  induction xs generalizing x with
  | nil => exact le_refl x
  | cons a xs ih => exact le_trans (le_max_left x a) (ih (max x a))

lemma pyMin_cons_le_pyMax_cons (x : ℚ) (xs : List ℚ) :
    pyMin (x :: xs) ≤ pyMax (x :: xs) :=
  le_trans (foldl_min_le x xs) (le_foldl_max x xs)

lemma detailedFareRange_fst_le_snd (fare : ℚ) (d m g : List ℚ) :
    (detailedFareRange fare d m g).1 ≤ (detailedFareRange fare d m g).2 := by
  cases d with
  | cons x xs => simpa [detailedFareRange] using pyMin_cons_le_pyMax_cons x xs
  | nil =>
    cases m with
    | cons x xs => simpa [detailedFareRange] using pyMin_cons_le_pyMax_cons x xs
    | nil =>
      cases g with
      | cons x xs => simpa [detailedFareRange] using pyMin_cons_le_pyMax_cons x xs
      | nil => simp [detailedFareRange]

lemma rowFareRange_fst_le_snd (row : BusRow) :
    (rowFareRange row).1 ≤ (rowFareRange row).2 := by
  unfold rowFareRange
  cases row.viewSeats with
  | false => simp
  | true =>
    simpa using
      detailedFareRange_fst_le_snd (initialFarePrice row.fareBold) (discountTier row)
        (multiFareTier row) (genericTier row)

/-! ## Claim theorems -/

/-- C2: after the seat panel is expanded, fare extraction tries the
discounted tier, then the multi-fare tier, then the generic tier, and the
first tier with a non-empty value set alone determines lowest as its
minimum and highest as its maximum; tiers are never merged, and when all
tiers are empty the single visible fallback fare is retained for both.
This is stated as equality with the specification-side `specFareRange`
over the three tiers in priority order, plus the concrete scenario: a row
whose expansion reveals discount prices 450.0, 500.0 and 475.0 yields
(450, 500), not its visible fallback 600. -/
theorem c2_fare_tier_priority :
    (∀ fare d m g, detailedFareRange fare d m g = specFareRange fare [d, m, g]) ∧
    rowFareRange discountScenarioRow = (450, 500) := by
  constructor
  · intro fare d m g
    cases d with
    | cons x xs => simp [detailedFareRange, specFareRange, List.find?]
    | nil =>
      cases m with
      | cons x xs => simp [detailedFareRange, specFareRange, List.find?]
      | nil =>
        cases g with
        | cons x xs => simp [detailedFareRange, specFareRange, List.find?]
        | nil => simp [detailedFareRange, specFareRange, List.find?]
  · decide

/-- C3: every record produced by a run of either variant has lowest price
at most highest price; when no fare tier produced values, lowest and
highest both equal the single visible fare; and that visible fare is 0
when the fare element is absent or its cleaned text is empty. -/
theorem c3_price_range_invariant :
    (∀ fromCity toCity store rows rec,
        rec ∈ search_buses_records fromCity toCity store rows →
        rec.lowestPrice ≤ rec.highestPrice) ∧
    (∀ fromCity toCity rows rec,
        rec ∈ parallel_search_records fromCity toCity rows →
        rec.lowestPrice ≤ rec.highestPrice) ∧
    (∀ row, discountTier row = [] → multiFareTier row = [] → genericTier row = [] →
        rowFareRange row = (initialFarePrice row.fareBold, initialFarePrice row.fareBold)) ∧
    initialFarePrice none = 0 ∧
    (∀ t, stripNonNumDot t = "" → initialFarePrice (some t) = 0) := by
  refine ⟨?_, ?_, ?_, rfl, ?_⟩
  · intro fromCity toCity store rows rec hrec
    simp only [search_buses_records, List.mem_map] at hrec
    obtain ⟨p, hp, rfl⟩ := hrec
    simpa [processBus] using rowFareRange_fst_le_snd p.2
  · intro fromCity toCity rows rec hrec
    simp only [parallel_search_records, List.mem_map] at hrec
    obtain ⟨p, hp, rfl⟩ := hrec
    simpa [processBus] using rowFareRange_fst_le_snd p.2
  · intro row hd hm hg
    cases hv : row.viewSeats <;> simp [rowFareRange, hv, detailedFareRange, hd, hm, hg]
  · intro t ht
    simp only [initialFarePrice, ht]
    decide

/-- Witness for C3 at concrete inputs: a one-row run of the sequential
variant, a row with empty tiers, and a fare text that cleans to empty. -/
theorem c3_price_range_invariant_witness :
    (processBus "Delhi" "Manali" 1 dupRow ∈
      search_buses_records "Delhi" "Manali" none [dupRow]) ∧
    (processBus "Delhi" "Manali" 1 dupRow).lowestPrice ≤
      (processBus "Delhi" "Manali" 1 dupRow).highestPrice ∧
    rowFareRange dupRow = (700, 700) ∧
    initialFarePrice (some "free") = 0 :=
  ⟨by decide,
   c3_price_range_invariant.1 "Delhi" "Manali" none [dupRow]
     (processBus "Delhi" "Manali" 1 dupRow) (by decide),
   c3_price_range_invariant.2.2.1 dupRow (by decide) (by decide) (by decide),
   c3_price_range_invariant.2.2.2.2 "free" (by decide)⟩

/-- C10: for the location selectors read via the title attribute, the
reader returns the element text whenever the title attribute is absent or
empty, and returns the Not Found default only when the location element
itself is missing; hence a present element with an empty title resolves
to its text as the stop name rather than to the city fallback, whenever
that text is not itself the Not Found sentinel. -/
theorem c10_location_title_fallback :
    (∀ dflt, safe_find_attribute_loc none dflt = dflt) ∧
    (∀ e dflt, e.title = none → safe_find_attribute_loc (some e) dflt = e.text) ∧
    (∀ e dflt, e.title = some "" → safe_find_attribute_loc (some e) dflt = e.text) ∧
    (∀ e t dflt, e.title = some t → t ≠ "" → safe_find_attribute_loc (some e) dflt = t) ∧
    (∀ fromCity e, (e.title = none ∨ e.title = some "") → e.text ≠ "Not Found" →
        resolvePoint (safe_find_attribute_loc (some e) "Not Found") fromCity = e.text) := by
  have hce : ("" : String).isEmpty = true := by decide
  refine ⟨fun _ => rfl, ?_, ?_, ?_, ?_⟩
  · intro e dflt h
    simp [safe_find_attribute_loc, h]
  · intro e dflt h
    simp [safe_find_attribute_loc, h, hce]
  · intro e t dflt h ht
    simp [safe_find_attribute_loc, h, String.isEmpty_iff, ht]
  · intro fromCity e h htext
    rcases h with h | h <;> simp [safe_find_attribute_loc, h, hce, resolvePoint, htext]

/-- Witness for C10: an element with an empty title and text Central Depot
resolves to Central Depot, not to the origin city. -/
theorem c10_location_title_fallback_witness :
    ((⟨some "", "Central Depot"⟩ : LocElem).title = none ∨
      (⟨some "", "Central Depot"⟩ : LocElem).title = some "") ∧
    ("Central Depot" : String) ≠ "Not Found" ∧
    resolvePoint (safe_find_attribute_loc (some ⟨some "", "Central Depot"⟩) "Not Found")
      "Delhi" = "Central Depot" :=
  ⟨Or.inr rfl, by decide,
   c10_location_title_fallback.2.2.2.2 "Delhi" ⟨some "", "Central Depot"⟩ (Or.inr rfl)
     (by decide)⟩

lemma identity_stream_search (fromCity toCity : String) (store : Option (List (List String)))
    (rows : List BusRow) :
    (search_buses_records fromCity toCity store rows).map recordIdentity =
      rows.map rowIdentity := by
  unfold search_buses_records
  rw [List.map_map]
  rw [show (recordIdentity ∘ fun p : ℕ × BusRow =>
      processBus fromCity toCity (startingBusId store + p.1) p.2) =
      rowIdentity ∘ Prod.snd from rfl]
  rw [← List.map_map, List.enum_map_snd]

lemma identity_stream_parallel (fromCity toCity : String) (rows : List BusRow) :
    (parallel_search_records fromCity toCity rows).map recordIdentity =
      rows.map rowIdentity := by
  unfold parallel_search_records
  rw [List.map_map]
  rw [show (recordIdentity ∘ fun p : ℕ × BusRow =>
      processBus fromCity toCity (p.1 + 1) p.2) = rowIdentity ∘ Prod.snd from rfl]
  rw [← List.map_map, List.enum_map_snd]

lemma busId_stream_search (fromCity toCity : String) (store : Option (List (List String)))
    (rows : List BusRow) :
    (search_buses_records fromCity toCity store rows).map BusRecord.busId =
      (List.range rows.length).map (fun i => startingBusId store + i) := by
  unfold search_buses_records
  rw [List.map_map]
  rw [show (BusRecord.busId ∘ fun p : ℕ × BusRow =>
      processBus fromCity toCity (startingBusId store + p.1) p.2) =
      (fun i => startingBusId store + i) ∘ Prod.fst from rfl]
  rw [← List.map_map, List.enum_map_fst]

lemma busId_stream_parallel (fromCity toCity : String) (rows : List BusRow) :
    (parallel_search_records fromCity toCity rows).map BusRecord.busId =
      (List.range rows.length).map (fun i => i + 1) := by
  unfold parallel_search_records
  rw [List.map_map]
  rw [show (BusRecord.busId ∘ fun p : ℕ × BusRow =>
      processBus fromCity toCity (p.1 + 1) p.2) = (fun i => i + 1) ∘ Prod.fst from rfl]
  rw [← List.map_map, List.enum_map_fst]

/-- C1 fails on the code: the per-row processing loop performs no
deduplication, so a run over two rendered rows with identical operator,
class and departure fields emits two records with the same
RecordIdentity. -/
theorem c1_counterexample :
    ¬ List.Pairwise (fun a b => a ≠ b)
      ((search_buses_records "Delhi" "Manali" none [dupRow, dupRow]).map recordIdentity) := by
  rw [identity_stream_search]
  decide

/-- C1 amended: the identities of the emitted records are exactly the
identity fields of the processed rows, in order — the loop emits one
record per rendered row and never deduplicates — so the identities are
pairwise distinct exactly when the rendered rows carry pairwise distinct
identity fields. -/
theorem c1_identity_stream :
    (∀ fromCity toCity store rows,
        (search_buses_records fromCity toCity store rows).map recordIdentity =
          rows.map rowIdentity) ∧
    (∀ fromCity toCity rows,
        (parallel_search_records fromCity toCity rows).map recordIdentity =
          rows.map rowIdentity) ∧
    (∀ fromCity toCity store rows,
        (rows.map rowIdentity).Pairwise (fun a b => a ≠ b) →
        ((search_buses_records fromCity toCity store rows).map recordIdentity).Pairwise
          (fun a b => a ≠ b)) :=
  ⟨identity_stream_search, identity_stream_parallel,
   fun fromCity toCity store rows h => by rw [identity_stream_search]; exact h⟩

/-- Witness for C1 amended on a run over two rows with distinct identity
fields. -/
theorem c1_identity_stream_witness :
    ([dupRow, otherRow].map rowIdentity).Pairwise (fun a b => a ≠ b) ∧
    ((search_buses_records "Delhi" "Manali" none [dupRow, otherRow]).map
      recordIdentity).Pairwise (fun a b => a ≠ b) :=
  ⟨by decide, c1_identity_stream.2.2 "Delhi" "Manali" none [dupRow, otherRow] (by decide)⟩

/-- C6 fails on the code: the parallel variant always restarts Bus IDs at
1. A run of one row appending to `demoStore`, which already holds three
valid data rows, emits the id 1 where the claim demands
`startingBusId demoStore = 4`. -/
theorem c6_counterexample :
    (parallel_search_records "Delhi" "Manali" [dupRow]).map BusRecord.busId = [1] ∧
    startingBusId (some demoStore) = 4 ∧
    (parallel_search_records "Delhi" "Manali" [dupRow]).map BusRecord.busId ≠
      [startingBusId (some demoStore)] := by
  refine ⟨?_, by decide, ?_⟩
  · rw [busId_stream_parallel]
    rfl
  · rw [busId_stream_parallel]
    decide

/-- C6 amended: in both variants the emitted sequence ids increase
strictly by one in discovery order. The sequential variant starts at the
count of existing non-empty data rows plus one (1 for a missing or empty
store); the parallel variant always restarts at 1, ignoring the existing
store. -/
theorem c6_sequence_ids :
    (∀ fromCity toCity store rows,
        (search_buses_records fromCity toCity store rows).map BusRecord.busId =
          (List.range rows.length).map (fun i => startingBusId store + i)) ∧
    (∀ fromCity toCity rows,
        (parallel_search_records fromCity toCity rows).map BusRecord.busId =
          (List.range rows.length).map (fun i => i + 1)) ∧
    (∀ fromCity toCity store rows,
        ((search_buses_records fromCity toCity store rows).map BusRecord.busId).Chain'
          (fun a b => a < b)) ∧
    (∀ fromCity toCity rows,
        ((parallel_search_records fromCity toCity rows).map BusRecord.busId).Chain'
          (fun a b => a < b)) ∧
    startingBusId none = 1 ∧
    startingBusId (some []) = 1 ∧
    (∀ hdr rows, startingBusId (some (hdr :: rows)) = countValidDataRows rows + 1) := by
  refine ⟨busId_stream_search, busId_stream_parallel, ?_, ?_, rfl, rfl, fun _ _ => rfl⟩
  · intro fromCity toCity store rows
    rw [busId_stream_search]
    refine List.Pairwise.chain' ?_
    refine List.Pairwise.map (fun i => startingBusId store + i) (fun a b hab => ?_)
      (List.pairwise_lt_range rows.length)
    exact Nat.add_lt_add_left hab (startingBusId store)
  · intro fromCity toCity rows
    rw [busId_stream_parallel]
    refine List.Pairwise.chain' ?_
    refine List.Pairwise.map (fun i => i + 1) (fun a b hab => ?_)
      (List.pairwise_lt_range rows.length)
    exact Nat.add_lt_add_right hab 1

lemma scrollLoop_growing :
    ∀ (fuel k cnt : ℕ),
      scrollLoop (fun n => n + 1) (fun _ => 10) (fun _ => 10) fuel k k cnt = none := by
  intro fuel
  induction fuel with
  | zero => intro k cnt; rfl
  | succ f ih =>
    intro k cnt
    simp only [scrollLoop]
    rw [if_neg (fun h => Nat.succ_ne_self k (And.left h))]
    exact ih (k + 1) 0

lemma scrollLoop_step_noChange (hPost cPre cPost : ℕ → ℕ) (f k lastHeight cnt : ℕ)
    (hh : hPost k = lastHeight) (hc : cPost k = cPre k) (hcnt : cnt + 1 < 3) :
    scrollLoop hPost cPre cPost (f + 1) k lastHeight cnt =
      scrollLoop hPost cPre cPost f (k + 1) lastHeight (cnt + 1) := by
  simp only [scrollLoop]
  rw [if_pos ⟨hh, hc⟩, if_neg (by simp only [maxConsecutiveNoChange]; omega), hh]

lemma scrollLoop_step_stop (hPost cPre cPost : ℕ → ℕ) (f k lastHeight cnt : ℕ)
    (hh : hPost k = lastHeight) (hc : cPost k = cPre k) (hcnt : 3 ≤ cnt + 1) :
    scrollLoop hPost cPre cPost (f + 1) k lastHeight cnt = some (k + 1) := by
  simp only [scrollLoop]
  rw [if_pos ⟨hh, hc⟩, if_pos (by simp only [maxConsecutiveNoChange]; omega)]

/-- C4 fails on the code: the Phase 2 scroll loop has no absolute bound on
scroll steps. Against a page whose height grows on every step, 100 fuel
steps — far past the claimed absolute bound of about 30 — are consumed
without the loop ever ending. -/
theorem c4_counterexample :
    scrollLoop (fun n => n + 1) (fun _ => 10) (fun _ => 10) 100 0 0 0 = none :=
  scrollLoop_growing 100 0 0

/-- C4 amended: the scroll loop has no absolute step bound — under a page
height that changes on every step it runs for any amount of fuel without
terminating — and it terminates only through the no-progress counter:
when height and row count observations are stable it ends three steps
later with the settling scroll. -/
theorem c4_scroll_termination :
    (∀ fuel k cnt,
        scrollLoop (fun n => n + 1) (fun _ => 10) (fun _ => 10) fuel k k cnt = none) ∧
    (∀ hPost cPre cPost fuel k lastHeight,
        (∀ n, hPost n = lastHeight) → (∀ n, cPost n = cPre n) → 3 ≤ fuel →
        scrollLoop hPost cPre cPost fuel k lastHeight 0 = some (k + 3)) := by
  refine ⟨scrollLoop_growing, ?_⟩
  intro hPost cPre cPost fuel k lastHeight hh hc hfuel
  obtain ⟨f, rfl⟩ : ∃ f, fuel = f + 3 := ⟨fuel - 3, by omega⟩
  rw [show f + 3 = f + 2 + 1 from rfl,
    scrollLoop_step_noChange hPost cPre cPost (f + 2) k lastHeight 0 (hh k) (hc k)
      (by omega),
    show f + 2 = f + 1 + 1 from rfl,
    scrollLoop_step_noChange hPost cPre cPost (f + 1) (k + 1) lastHeight 1 (hh (k + 1))
      (hc (k + 1)) (by omega),
    scrollLoop_step_stop hPost cPre cPost f (k + 2) lastHeight 2 (hh (k + 2)) (hc (k + 2))
      (by omega)]

/-- Witness for C4 amended: a page stable at height 700 with 10 rendered
rows ends the scroll loop after exactly 3 steps. -/
theorem c4_scroll_termination_witness :
    scrollLoop (fun _ => 700) (fun _ => 10) (fun _ => 10) 10 0 700 0 = some 3 :=
  c4_scroll_termination.2 (fun _ => 700) (fun _ => 10) (fun _ => 10) 10 0 700
    (fun _ => rfl) (fun _ => rfl) (by omega)

/-- C5 fails on the code: the no-progress counter consults only the page
height and the rendered row count. On a step where both are unchanged but
the harvested count moves from 0 to 2, the code increments the counter to
1 while the claimed three-signal rule resets it to 0. -/
theorem c5_counterexample :
    scrollCounterUpdate 700 700 10 10 0 = 1 ∧
    specNoProgressUpdate 700 700 10 10 0 2 0 = 0 ∧
    scrollCounterUpdate 700 700 10 10 0 ≠ specNoProgressUpdate 700 700 10 10 0 2 0 := by
  decide

/-- C5 amended: one scroll step updates the counter by the two-signal
rule — increment exactly when neither page height nor rendered row count
changed, reset to zero otherwise (the harvested count plays no role,
since harvesting happens only after the scroll phase in both variants) —
and the loop stops, after a final scroll to the bottom, exactly when the
updated counter reaches the fixed threshold 3; the code rule agrees with
the claimed three-signal rule precisely on steps where the harvested
count did not change. -/
theorem c5_no_progress_counter :
    (∀ hPost cPre cPost fuel k lastHeight cnt,
        scrollLoop hPost cPre cPost (fuel + 1) k lastHeight cnt =
          if maxConsecutiveNoChange ≤
              scrollCounterUpdate lastHeight (hPost k) (cPre k) (cPost k) cnt then
            some (k + 1)
          else
            scrollLoop hPost cPre cPost fuel (k + 1) (hPost k)
              (scrollCounterUpdate lastHeight (hPost k) (cPre k) (cPost k) cnt)) ∧
    (∀ lastHeight newHeight cPre cPost harvestedPre harvestedPost cnt,
        harvestedPost = harvestedPre →
        scrollCounterUpdate lastHeight newHeight cPre cPost cnt =
          specNoProgressUpdate lastHeight newHeight cPre cPost harvestedPre harvestedPost
            cnt) ∧
    maxConsecutiveNoChange = 3 := by
  refine ⟨?_, ?_, rfl⟩
  · intro hPost cPre cPost fuel k lastHeight cnt
    by_cases h : hPost k = lastHeight ∧ cPost k = cPre k
    · simp only [scrollLoop, scrollCounterUpdate, if_pos h, ge_iff_le]
    · simp only [scrollLoop, scrollCounterUpdate, if_neg h, ge_iff_le]
      rw [if_neg (by simp only [maxConsecutiveNoChange]; omega)]
  · intro lastHeight newHeight cPre cPost harvestedPre harvestedPost cnt h
    simp [scrollCounterUpdate, specNoProgressUpdate, h]

/-- Witness for C5 amended on a step with no harvest movement. -/
theorem c5_no_progress_counter_witness :
    scrollCounterUpdate 5 5 7 7 1 = specNoProgressUpdate 5 5 7 7 4 4 1 :=
  c5_no_progress_counter.2.1 5 5 7 7 4 4 1 rfl

lemma runRouteAux_navFail (m : ℕ) (fromCity toCity : String) :
    ∀ fuel rc i store, rc + fuel = m + 1 → rc ≤ m →
      runRouteAux (fun _ => AttemptResult.navFail) m fromCity toCity fuel rc i store =
        (store ++ [errorRow fromCity toCity "ERROR"], true) := by
  intro fuel
  induction fuel with
  | zero =>
    intro rc i store h hrc
    exfalso
    omega
  | succ fl ih =>
    intro rc i store h hrc
    simp only [runRouteAux, if_pos hrc]
    by_cases h2 : rc + 1 ≤ m
    · rw [if_pos h2]
      exact ih (rc + 1) (i + 1) store (by omega) h2
    · rw [if_neg h2]

lemma runRouteAux_resultsFail (m k : ℕ) (fromCity toCity : String) :
    ∀ fuel rc i store, rc + fuel = m + 1 → rc ≤ m →
      runRouteAux (fun _ => AttemptResult.resultsFail k) m fromCity toCity fuel rc i store =
        (store ++ List.replicate (fuel * k + 2) (errorRow fromCity toCity "ERROR"), true) := by
  intro fuel
  induction fuel with
  | zero =>
    intro rc i store h hrc
    exfalso
    omega
  | succ fl ih =>
    intro rc i store h hrc
    simp only [runRouteAux, if_pos hrc]
    by_cases h2 : rc + 1 ≤ m
    · rw [if_pos h2,
        ih (rc + 1) (i + 1) (store ++ List.replicate k (errorRow fromCity toCity "ERROR"))
          (by omega) h2,
        List.append_assoc, ← List.replicate_add]
      have harith : k + (fl * k + 2) = (fl + 1) * k + 2 := by ring
      rw [harith]
    · rw [if_neg h2]
      have hfl : fl = 0 := by omega
      subst hfl
      have harith : (0 + 1) * k + 2 = (k + 1) + 1 := by ring
      rw [harith, List.replicate_succ', List.replicate_succ']
      simp [List.append_assoc]

lemma processBusAux_procFail (m : ℕ) (fromCity toCity : String) (dataRow : List String) :
    ∀ fuel rc j store, rc + fuel = m + 1 → rc ≤ m →
      processBusAux (fun _ => BusAttemptResult.procFail) m fromCity toCity dataRow fuel rc j
        store = (store ++ [errorRow fromCity toCity "ERROR"], true) := by
  intro fuel
  induction fuel with
  | zero =>
    intro rc j store h hrc
    exfalso
    omega
  | succ fl ih =>
    intro rc j store h hrc
    simp only [processBusAux, if_pos hrc]
    by_cases h2 : rc + 1 ≤ m
    · rw [if_pos h2]
      exact ih (rc + 1) (j + 1) store (by omega) h2
    · rw [if_neg h2]

lemma processBusAux_csvFail (m : ℕ) (fromCity toCity : String) (dataRow : List String) :
    ∀ fuel rc j store, rc + fuel = m + 1 → rc ≤ m →
      processBusAux (fun _ => BusAttemptResult.csvFail) m fromCity toCity dataRow fuel rc j
        store =
        (store ++ [errorRow fromCity toCity "ERROR"] ++ [errorRow fromCity toCity "ERROR"],
         true) := by
  intro fuel
  induction fuel with
  | zero =>
    intro rc j store h hrc
    exfalso
    omega
  | succ fl ih =>
    intro rc j store h hrc
    simp only [processBusAux, if_pos hrc]
    by_cases h2 : rc + 1 ≤ m
    · rw [if_pos h2]
      exact ih (rc + 1) (j + 1) store (by omega) h2
    · rw [if_neg h2]

/-- C7 fails on the code: sentinel rows are not written exactly once at
exhaustion, and no already-present check exists. With max_retries = 3 and
a bus that exhausts its per-bus reading retries on every route attempt,
each of the four route attempts appends one per-bus sentinel row and the
two route-level handlers append two more at exhaustion: six rows, not
one. A route that fails this way once and then succeeds surfaces no
failure yet leaves one sentinel row in its store. And a navigation-failed
run against a store already holding a sentinel row appends another
without checking. -/
theorem c7_counterexample :
    sentinelCount
      (runRoute (fun _ => AttemptResult.resultsFail 1) 3 "Delhi" "Manali" [csvHeader]).1 = 6 ∧
    (runRoute (fun i => if i = 0 then AttemptResult.resultsFail 1 else AttemptResult.success)
      3 "Delhi" "Manali" [csvHeader]).2 = false ∧
    sentinelCount
      (runRoute (fun i => if i = 0 then AttemptResult.resultsFail 1 else AttemptResult.success)
        3 "Delhi" "Manali" [csvHeader]).1 = 1 ∧
    sentinelCount
      (runRoute (fun _ => AttemptResult.navFail) 3 "Delhi" "Manali"
        [csvHeader, errorRow "Delhi" "Manali" "ERROR"]).1 = 2 := by
  decide

/-- C7 amended: sentinel rows are appended unconditionally, with no
already-present check, and not only at route-retry exhaustion. A run
whose every attempt fails in navigation appends exactly one row at
exhaustion. A run whose every attempt fails inside results processing
with k per-bus sentinel rows appended per attempt ends with
(maxRetries + 1) * k + 2 rows: k per attempt from the per-bus handlers,
plus one from the inner route-level handler and one from the
function-level handler at exhaustion. Per attempt, a bus that exhausts
its per-bus retries in the reading handler contributes k = 1 and in the
CSV-write handler k = 2 (its own row plus the enclosing per-bus handler
row), while a successfully processed bus appends only its data row. A run
whose attempts all succeed appends nothing, and an attempt that failed
through per-bus exhaustion leaves its sentinel rows in the store even
when a later attempt succeeds. -/
theorem c7_sentinel_rows :
    (∀ m fromCity toCity store,
        runRoute (fun _ => AttemptResult.navFail) m fromCity toCity store =
          (store ++ [errorRow fromCity toCity "ERROR"], true)) ∧
    (∀ m k fromCity toCity store,
        runRoute (fun _ => AttemptResult.resultsFail k) m fromCity toCity store =
          (store ++ List.replicate ((m + 1) * k + 2) (errorRow fromCity toCity "ERROR"),
           true)) ∧
    (∀ m fromCity toCity store,
        runRoute (fun _ => AttemptResult.success) m fromCity toCity store = (store, false)) ∧
    (∀ attempt m k fromCity toCity store, 1 ≤ m →
        attempt 0 = AttemptResult.resultsFail k → attempt 1 = AttemptResult.success →
        runRoute attempt m fromCity toCity store =
          (store ++ List.replicate k (errorRow fromCity toCity "ERROR"), false)) ∧
    (∀ m fromCity toCity dataRow store,
        processBusWithRetries (fun _ => BusAttemptResult.procFail) m fromCity toCity dataRow
          store = (store ++ [errorRow fromCity toCity "ERROR"], true)) ∧
    (∀ m fromCity toCity dataRow store,
        processBusWithRetries (fun _ => BusAttemptResult.csvFail) m fromCity toCity dataRow
          store =
          (store ++ [errorRow fromCity toCity "ERROR"] ++ [errorRow fromCity toCity "ERROR"],
           true)) ∧
    (∀ m fromCity toCity dataRow store,
        processBusWithRetries (fun _ => BusAttemptResult.ok) m fromCity toCity dataRow store =
          (store ++ [dataRow], false)) := by
  refine ⟨?_, ?_, ?_, ?_, ?_, ?_, ?_⟩
  · intro m fromCity toCity store
    exact runRouteAux_navFail m fromCity toCity (m + 1) 0 0 store (by omega) (Nat.zero_le m)
  · intro m k fromCity toCity store
    exact runRouteAux_resultsFail m k fromCity toCity (m + 1) 0 0 store (by omega)
      (Nat.zero_le m)
  · intro m fromCity toCity store
    simp only [runRoute, runRouteAux, if_pos (Nat.zero_le m)]
  · intro attempt m k fromCity toCity store hm h0 h1
    obtain ⟨m2, rfl⟩ : ∃ m2, m = m2 + 1 := ⟨m - 1, by omega⟩
    show runRouteAux attempt (m2 + 1) fromCity toCity (m2 + 1 + 1) 0 0 store = _
    simp only [runRouteAux, h0, h1, Nat.zero_add]
    rw [if_pos (by omega : (0 : ℕ) ≤ m2 + 1), if_pos (by omega : (1 : ℕ) ≤ m2 + 1),
      if_pos (by omega : (1 : ℕ) ≤ m2 + 1)]
  · intro m fromCity toCity dataRow store
    exact processBusAux_procFail m fromCity toCity dataRow (m + 1) 0 0 store (by omega)
      (Nat.zero_le m)
  · intro m fromCity toCity dataRow store
    exact processBusAux_csvFail m fromCity toCity dataRow (m + 1) 0 0 store (by omega)
      (Nat.zero_le m)
  · intro m fromCity toCity dataRow store
    simp only [processBusWithRetries, processBusAux, if_pos (Nat.zero_le m)]

/-- Witness for C7 amended: a route whose first attempt dies through one
per-bus sentinel row and whose second attempt succeeds ends without a
surfaced failure but with that sentinel row in its store. -/
theorem c7_sentinel_rows_witness :
    (1 ≤ 3) ∧
    runRoute (fun i => if i = 0 then AttemptResult.resultsFail 1 else AttemptResult.success)
      3 "Delhi" "Manali" [csvHeader] =
      ([csvHeader] ++ List.replicate 1 (errorRow "Delhi" "Manali" "ERROR"), false) :=
  ⟨by omega,
   c7_sentinel_rows.2.2.2.1
     (fun i => if i = 0 then AttemptResult.resultsFail 1 else AttemptResult.success)
     3 1 "Delhi" "Manali" [csvHeader] (by omega) (by decide) (by decide)⟩

lemma rowMarksError_head (r : List String) : rowMarksError r = (r.head? == some "error") := by
  cases r <;> rfl

/-- C8: a route is excluded from batch processing exactly when the skip
flag is set and its output store exists and contains a data row whose
first column is the string error; with the flag unset every route is
kept. The code check `check_route_failed` coincides with the
specification-side `storeHasErrorRow`. -/
theorem c8_skip_previously_failed :
    (∀ store, check_route_failed store = storeHasErrorRow store) ∧
    (∀ skipFailed storeOf routes r, r ∈ routes →
        (r ∉ routesToProcess skipFailed storeOf routes ↔
          skipFailed = true ∧ check_route_failed (storeOf r) = true)) ∧
    (∀ storeOf routes, routesToProcess false storeOf routes = routes) := by
  refine ⟨?_, ?_, fun _ _ => rfl⟩
  · intro store
    match store with
    | none => rfl
    | some [] => rfl
    | some (hdr :: rows) =>
      simp only [check_route_failed, storeHasErrorRow]
      rw [funext rowMarksError_head]
  · intro skipFailed storeOf routes r hr
    cases skipFailed <;> simp [routesToProcess, List.mem_filter, hr]

/-- Witness for C8: with the skip flag set, a route whose store holds a
sentinel row is excluded. -/
theorem c8_skip_previously_failed_witness :
    (("Delhi", "Manali") ∈ [("Delhi", "Manali")]) ∧
    ("Delhi", "Manali") ∉ routesToProcess true demoStoreOf [("Delhi", "Manali")] :=
  ⟨by decide,
   (c8_skip_previously_failed.2.1 true demoStoreOf [("Delhi", "Manali")] ("Delhi", "Manali")
     (by decide)).mpr (by decide)⟩

lemma fillPool_snd (mw : ℕ) :
    ∀ (q : List (String × String)) (n : ℕ), n ≤ mw →
      (fillPool mw q n).2 = min (n + q.length) mw := by
  intro q
  induction q with
  | nil =>
    intro n hn
    simp only [fillPool, List.length_nil, Nat.add_zero]
    omega
  | cons r rest ih =>
    intro n hn
    by_cases h : n < mw
    · simp only [fillPool, if_pos h, List.length_cons]
      rw [ih (n + 1) (by omega)]
      omega
    · simp only [fillPool, if_neg h, List.length_cons]
      omega

lemma finishOne_snd_le (s : List (String × String) × ℕ) : (finishOne s).2 ≤ s.2 := by
  obtain ⟨q, n⟩ := s
  match q, n with
  | q, 0 => simp [finishOne]
  | [], n + 1 => simp [finishOne]
  | r :: rest, n + 1 => simp [finishOne]

lemma iterate_finishOne_le (mw : ℕ) :
    ∀ (events : ℕ) (s : List (String × String) × ℕ), s.2 ≤ mw →
      (finishOne^[events] s).2 ≤ mw := by
  intro events
  induction events with
  | zero => intro s hs; simpa using hs
  | succ e ih =>
    intro s hs
    rw [Function.iterate_succ_apply]
    exact ih (finishOne s) (le_trans (finishOne_snd_le s) hs)

/-- C9: the number of route jobs tracked in flight never exceeds
`max_workers = min(cpu_count or 1, 3)` — the initial fill stops exactly
at the bound (or earlier when the queue runs out) and each finish event
removes one job before starting at most one replacement. -/
theorem c9_worker_bound :
    (∀ cpuCount routes events,
        (runCoordinator (maxWorkers cpuCount) routes events).2 ≤ maxWorkers cpuCount) ∧
    (∀ mw routes, (fillPool mw routes 0).2 = min routes.length mw) ∧
    (∀ cpuCount, maxWorkers cpuCount ≤ 3) ∧
    (∀ s, (finishOne s).2 ≤ s.2) := by
  refine ⟨?_, ?_, ?_, finishOne_snd_le⟩
  · intro cpuCount routes events
    refine iterate_finishOne_le (maxWorkers cpuCount) events (fillPool (maxWorkers cpuCount) routes 0) ?_
    rw [fillPool_snd (maxWorkers cpuCount) routes 0 (Nat.zero_le _)]
    omega
  · intro mw routes
    rw [fillPool_snd mw routes 0 (Nat.zero_le mw), Nat.zero_add]
  · intro cpuCount
    exact min_le_right _ 3

end Redbus
